import Mathlib

/-!
Shallow embedding of the Tawsil web application backend
(src/src/supabase/functions/server/supabaseFunctions.md) in Lean 4.

The backend is a set of Hono HTTP handlers over a relational store
(schema.sql).  We model the database as lists of rows, UUIDs as natural
numbers drawn from a fresh-id counter, DECIMAL / parseFloat values as
rationals, and INTEGER stock / quantity values as integers.  Each handler
becomes a pure function from (request data, database) to (response,
database).  Timestamps carried only for bookkeeping (created_at,
updated_at) are modelled as strings supplied by the request where the
code calls new Date().
-/

namespace Tawsil

/-- Verified auth user, as returned by supabase.auth.getUser.  The
appRoles and appRole fields model app_metadata.roles / app_metadata.role
read by GET /user/role. -/
structure AuthUser where
  id : Nat
  email : Option String
  appRoles : List String := []
  appRole : Option String := none
deriving Repr, DecidableEq

/-- Row of the users table (schema.sql). -/
structure UserRow where
  id : Nat
  email : Option String
  role : String
  name : Option String := none
  phone : Option String := none
deriving Repr, DecidableEq

/-- Row of the categories table. -/
structure Category where
  id : Nat
  name : String
  description : String := ""
deriving Repr, DecidableEq

/-- Row of the products table. -/
structure Product where
  id : Nat
  name : String
  description : String := ""
  price : ℚ
  category_id : Option Nat := none
  image : String := ""
  stock : Int
  created_by : Option Nat := none
deriving Repr, DecidableEq

/-- Row of the addresses table. -/
structure Address where
  id : Nat
  user_id : Nat
  name : String := ""
  street : String := ""
  city : String := ""
  state : String := ""
  postal_code : String := ""
  country : String := ""
  is_default : Bool := false
deriving Repr, DecidableEq

/-- Row of the cart_items table. -/
structure CartItem where
  id : Nat
  user_id : Nat
  product_id : Nat
  quantity : Int
deriving Repr, DecidableEq

/-- Row of the wishlist_items table. -/
structure WishlistItem where
  id : Nat
  user_id : Nat
  product_id : Nat
deriving Repr, DecidableEq

/-- Row of the orders table. -/
structure Order where
  id : Nat
  user_id : Nat
  user_email : Option String
  total : ℚ
  status : String
  shipping_address : String := ""
  created_at : String := ""
  updated_by : Option Nat := none
deriving Repr, DecidableEq

/-- Row of the order_items table. -/
structure OrderItem where
  id : Nat
  order_id : Nat
  product_id : Nat
  name : String
  price : ℚ
  quantity : Int
deriving Repr, DecidableEq

/-- JSON scalar stored inside the details JSONB column of
activity_logs. -/
inductive DVal where
  | str (s : String)
  | num (q : ℚ)
  | int (n : Int)
  | nat (n : Nat)
deriving Repr, DecidableEq

/-- Row of the activity_logs table; details is a JSON object, modelled
as an association list from keys to scalars. -/
structure ActivityLog where
  type : String
  user_id : Nat
  user_email : Option String
  details : List (String × DVal)
deriving Repr, DecidableEq

/-- Whole database state, plus the auth-provider user store and a
fresh-id counter standing in for UUID generation. -/
structure DB where
  authUsers : List AuthUser := []
  users : List UserRow := []
  categories : List Category := []
  products : List Product := []
  addresses : List Address := []
  cart_items : List CartItem := []
  wishlist_items : List WishlistItem := []
  orders : List Order := []
  order_items : List OrderItem := []
  activity_logs : List ActivityLog := []
  nextId : Nat := 0
deriving Repr, DecidableEq

/-- HTTP response: success with a status code, or a JSON error body with
a status code. -/
inductive Resp where
  | ok (code : Nat)
  | err (code : Nat) (msg : String)
deriving Repr, DecidableEq

/-- Stock of the product row selected by .eq(id, pid).single(), if any. -/
def stockOfP (ps : List Product) (pid : Nat) : Option Int :=
  (ps.find? (fun p => p.id == pid)).map Product.stock

/-- Stock of a product in the database. -/
def stockOf (db : DB) (pid : Nat) : Option Int :=
  stockOfP db.products pid

/-- Translation of the update call
from(products).update(stock := s).eq(id, pid): every row whose id
matches is overwritten with the given stock value. -/
def updStock (ps : List Product) (pid : Nat) (s : Int) : List Product :=
  ps.map (fun p => if p.id == pid then { p with stock := s } else p)

/-- JS String.prototype.toLowerCase on the ASCII emails used by the
code, modelled as a per-character lowercase map. -/
def lowerStr (s : String) : String :=
  String.mk (s.data.map Char.toLower)

/-- Translation of getOrCreateUserRecord: look the caller up in the
users table; if absent, insert a row whose role is admin exactly when
the auth email lowercases to admin@tawsil.com. -/
def getOrCreateUserRecord (db : DB) (userId : Nat) (email : Option String) :
    UserRow × DB :=
  match db.users.find? (fun u => u.id == userId) with
  | some existingUser => (existingUser, db)
  | none =>
    let role := if email.map lowerStr = some "admin@tawsil.com"
      then "admin" else "user"
    let newUser : UserRow := { id := userId, email := email, role := role }
    (newUser, { db with users := db.users ++ [newUser] })

/-- Translation of POST /server/signup: create the auth user (error if
the email is already registered), then insert a users row with role
user. -/
def postSignup (email password name : String) (db : DB) : Resp × DB :=
  let _ := password
  if db.authUsers.any (fun a => a.email == some email) then
    (.err 400 "Email already registered", db)
  else
    let uid := db.nextId
    let authUser : AuthUser := { id := uid, email := some email }
    let userRow : UserRow :=
      { id := uid, email := some email, role := "user", name := some name }
    (.ok 201,
      { db with authUsers := db.authUsers ++ [authUser],
                users := db.users ++ [userRow],
                nextId := db.nextId + 1 })

/-- Translation of POST /server/create-admin: same as signup but the
users row gets role admin.  Note: the handler never calls verifyUser. -/
def postCreateAdmin (email password name : String) (db : DB) : Resp × DB :=
  let _ := password
  if db.authUsers.any (fun a => a.email == some email) then
    (.err 400 "User already exists", db)
  else
    let uid := db.nextId
    let authUser : AuthUser := { id := uid, email := some email }
    let userRow : UserRow :=
      { id := uid, email := some email, role := "admin", name := some name }
    (.ok 201,
      { db with authUsers := db.authUsers ++ [authUser],
                users := db.users ++ [userRow],
                nextId := db.nextId + 1 })

/-- Translation of GET /server/user. -/
def getUser (auth : Option AuthUser) (db : DB) : Resp × DB :=
  match auth with
  | none => (.err 401 "Unauthorized", db)
  | some user =>
    let r := getOrCreateUserRecord db user.id user.email
    (.ok 200, r.2)

/-- Translation of GET /server/user/role: reads the stored role and the
auth app_metadata claims; no writes. -/
def getUserRole (auth : Option AuthUser) (db : DB) : Resp × DB :=
  match auth with
  | none => (.err 401 "Unauthorized", db)
  | some user =>
    let row := db.users.find? (fun u => u.id == user.id)
    let adminUser := db.authUsers.find? (fun a => a.id == user.id)
    let roles := (adminUser.map AuthUser.appRoles).getD []
    let hasAdminClaim :=
      roles.contains "admin" || (adminUser.bind AuthUser.appRole) == some "admin"
    let _ := (row.map UserRow.role) == some "admin" || hasAdminClaim
    (.ok 200, db)

/-- Translation of PUT /server/user/profile: update name and phone on
the callers users row; .single() errors when the row is absent. -/
def putUserProfile (auth : Option AuthUser) (name phone : String) (db : DB) :
    Resp × DB :=
  match auth with
  | none => (.err 401 "Unauthorized", db)
  | some user =>
    if db.users.any (fun u => u.id == user.id) then
      (.ok 200,
        { db with users := db.users.map (fun u =>
            if u.id == user.id then
              { u with name := some name, phone := some phone } else u) })
    else (.err 400 "0 rows", db)

/-- Translation of GET /server/user/addresses (read only). -/
def getUserAddresses (auth : Option AuthUser) (db : DB) : Resp × DB :=
  match auth with
  | none => (.err 401 "Unauthorized", db)
  | some _ => (.ok 200, db)

/-- Translation of GET /server/addresses (read only). -/
def getAddresses (auth : Option AuthUser) (db : DB) : Resp × DB :=
  match auth with
  | none => (.err 401 "Unauthorized", db)
  | some _ => (.ok 200, db)

/-- Request body for POST /addresses and PUT /addresses/:id. -/
structure AddressBody where
  name : String := ""
  street : String := ""
  city : String := ""
  state : String := ""
  postal_code : String := ""
  country : String := ""
  is_default : Bool := false
deriving Repr, DecidableEq

/-- Translation of the update call
from(addresses).update(is_default := false).eq(user_id, uid) issued by
POST /addresses. -/
def clearUserDefaults (uid : Nat) (l : List Address) : List Address :=
  l.map (fun a =>
    if a.user_id == uid then { a with is_default := false } else a)

/-- Translation of the update call
from(addresses).update(is_default := false).eq(user_id, uid)
.neq(id, addressId) issued by PUT /addresses/:id. -/
def clearUserDefaultsNe (uid addressId : Nat) (l : List Address) :
    List Address :=
  l.map (fun a =>
    if a.user_id == uid && a.id != addressId then
      { a with is_default := false } else a)

/-- Overwrite a row with the fields of an address request body. -/
def applyAddressBody (body : AddressBody) (a : Address) : Address :=
  { a with name := body.name, street := body.street, city := body.city,
           state := body.state, postal_code := body.postal_code,
           country := body.country, is_default := body.is_default }

/-- Translation of POST /server/addresses: when the new address is
marked default, first clear is_default on every address of the caller,
then insert. -/
def postAddresses (auth : Option AuthUser) (body : AddressBody) (db : DB) :
    Resp × DB :=
  match auth with
  | none => (.err 401 "Unauthorized", db)
  | some user =>
    let addresses1 :=
      if body.is_default then clearUserDefaults user.id db.addresses
      else db.addresses
    let newAddr : Address :=
      { id := db.nextId, user_id := user.id, name := body.name,
        street := body.street, city := body.city, state := body.state,
        postal_code := body.postal_code, country := body.country,
        is_default := body.is_default }
    (.ok 201,
      { db with addresses := addresses1 ++ [newAddr],
                nextId := db.nextId + 1 })

/-- Translation of PUT /server/addresses/:id: when the update marks the
address default, first clear is_default on every other address of the
caller; then update the row matching both id and user_id (.single()
errors when no row matches). -/
def putAddress (auth : Option AuthUser) (addressId : Nat) (body : AddressBody)
    (db : DB) : Resp × DB :=
  match auth with
  | none => (.err 401 "Unauthorized", db)
  | some user =>
    let addresses1 :=
      if body.is_default then
        clearUserDefaultsNe user.id addressId db.addresses
      else db.addresses
    if addresses1.any (fun a => a.id == addressId && a.user_id == user.id) then
      (.ok 200,
        { db with addresses := addresses1.map (fun a =>
            if a.id == addressId && a.user_id == user.id then
              applyAddressBody body a
            else a) })
    else (.err 400 "0 rows", { db with addresses := addresses1 })

/-- Translation of DELETE /server/addresses/:id. -/
def deleteAddress (auth : Option AuthUser) (addressId : Nat) (db : DB) :
    Resp × DB :=
  match auth with
  | none => (.err 401 "Unauthorized", db)
  | some user =>
    (.ok 200,
      { db with addresses := db.addresses.filter (fun a =>
          !(a.id == addressId && a.user_id == user.id)) })

/-- Translation of GET /server/categories: public, read only. -/
def getCategories (db : DB) : Resp × DB :=
  (.ok 200, db)

/-- Translation of POST /server/categories (admin only). -/
def postCategories (auth : Option AuthUser) (name description : String)
    (db : DB) : Resp × DB :=
  match auth with
  | none => (.err 401 "Unauthorized", db)
  | some user =>
    let r := getOrCreateUserRecord db user.id user.email
    if r.1.role != "admin" then (.err 403 "Admin access required", r.2)
    else
      let cat : Category :=
        { id := r.2.nextId, name := name, description := description }
      (.ok 201,
        { r.2 with categories := r.2.categories ++ [cat],
                   nextId := r.2.nextId + 1 })

/-- Partial update body for PUT /categories/:id. -/
structure CategoryUpdates where
  name : Option String := none
  description : Option String := none
deriving Repr, DecidableEq

/-- Translation of PUT /server/categories/:id (admin only). -/
def putCategory (auth : Option AuthUser) (categoryId : Nat)
    (updates : CategoryUpdates) (db : DB) : Resp × DB :=
  match auth with
  | none => (.err 401 "Unauthorized", db)
  | some user =>
    let r := getOrCreateUserRecord db user.id user.email
    if r.1.role != "admin" then (.err 403 "Admin access required", r.2)
    else if r.2.categories.any (fun c => c.id == categoryId) then
      (.ok 200,
        { r.2 with categories := r.2.categories.map (fun c =>
            if c.id == categoryId then
              { c with name := updates.name.getD c.name,
                       description := updates.description.getD c.description }
            else c) })
    else (.err 400 "0 rows", r.2)

/-- Translation of DELETE /server/categories/:id (admin only). -/
def deleteCategory (auth : Option AuthUser) (categoryId : Nat) (db : DB) :
    Resp × DB :=
  match auth with
  | none => (.err 401 "Unauthorized", db)
  | some user =>
    let r := getOrCreateUserRecord db user.id user.email
    if r.1.role != "admin" then (.err 403 "Admin access required", r.2)
    else
      (.ok 200,
        { r.2 with categories :=
            r.2.categories.filter (fun c => !(c.id == categoryId)) })

/-- Translation of GET /server/products: public, read only. -/
def getProducts (db : DB) : Resp × DB :=
  (.ok 200, db)

/-- Translation of GET /server/products/:id: public, read only; 404 when
the product does not exist. -/
def getProduct (productId : Nat) (db : DB) : Resp × DB :=
  match db.products.find? (fun p => p.id == productId) with
  | none => (.err 404 "Product not found", db)
  | some _ => (.ok 200, db)

/-- Request body for POST /products. -/
structure ProductBody where
  name : String := ""
  description : String := ""
  price : ℚ := 0
  category : String := ""
  image : String := ""
  stock : Int := 0
deriving Repr, DecidableEq

/-- Translation of POST /server/products (admin only): resolve the
category name to an id (null when absent) and insert. -/
def postProducts (auth : Option AuthUser) (body : ProductBody) (db : DB) :
    Resp × DB :=
  match auth with
  | none => (.err 401 "Unauthorized", db)
  | some user =>
    let r := getOrCreateUserRecord db user.id user.email
    if r.1.role != "admin" then (.err 403 "Admin access required", r.2)
    else
      let categoryData :=
        r.2.categories.find? (fun c => c.name == body.category)
      let p : Product :=
        { id := r.2.nextId, name := body.name,
          description := body.description, price := body.price,
          category_id := categoryData.map Category.id, image := body.image,
          stock := body.stock, created_by := some user.id }
      (.ok 201,
        { r.2 with products := r.2.products ++ [p],
                   nextId := r.2.nextId + 1 })

/-- Partial update body for PUT /products/:id. -/
structure ProductUpdates where
  name : Option String := none
  description : Option String := none
  price : Option ℚ := none
  category : Option String := none
  image : Option String := none
  stock : Option Int := none
deriving Repr, DecidableEq

/-- Translation of PUT /server/products/:id (admin only): a provided
category name is resolved to category_id, then the row matching the id
is updated (.single() errors when no row matches). -/
def putProduct (auth : Option AuthUser) (productId : Nat)
    (updates : ProductUpdates) (db : DB) : Resp × DB :=
  match auth with
  | none => (.err 401 "Unauthorized", db)
  | some user =>
    let r := getOrCreateUserRecord db user.id user.email
    if r.1.role != "admin" then (.err 403 "Admin access required", r.2)
    else
      let newCat := updates.category.map (fun catName =>
        (r.2.categories.find? (fun c => c.name == catName)).map Category.id)
      if r.2.products.any (fun p => p.id == productId) then
        (.ok 200,
          { r.2 with products := r.2.products.map (fun p =>
              if p.id == productId then
                { p with name := updates.name.getD p.name,
                         description := updates.description.getD p.description,
                         price := updates.price.getD p.price,
                         category_id := newCat.getD p.category_id,
                         image := updates.image.getD p.image,
                         stock := updates.stock.getD p.stock }
              else p) })
      else (.err 400 "0 rows", r.2)

/-- Translation of DELETE /server/products/:id (admin only). -/
def deleteProduct (auth : Option AuthUser) (productId : Nat) (db : DB) :
    Resp × DB :=
  match auth with
  | none => (.err 401 "Unauthorized", db)
  | some user =>
    let r := getOrCreateUserRecord db user.id user.email
    if r.1.role != "admin" then (.err 403 "Admin access required", r.2)
    else
      (.ok 200,
        { r.2 with products :=
            r.2.products.filter (fun p => !(p.id == productId)) })

/-- Translation of GET /server/cart (read only). -/
def getCart (auth : Option AuthUser) (db : DB) : Resp × DB :=
  match auth with
  | none => (.err 401 "Unauthorized", db)
  | some _ => (.ok 200, db)

/-- Translation of POST /server/cart: if a row for (user, product)
already exists, update its quantity to the sum by row id; otherwise
insert a new row. -/
def postCart (auth : Option AuthUser) (productId : Nat) (quantity : Int)
    (db : DB) : Resp × DB :=
  match auth with
  | none => (.err 401 "Unauthorized", db)
  | some user =>
    match db.cart_items.find? (fun it =>
        it.user_id == user.id && it.product_id == productId) with
    | some existingItem =>
      (.ok 200,
        { db with cart_items := db.cart_items.map (fun it =>
            if it.id == existingItem.id then
              { it with quantity := existingItem.quantity + quantity }
            else it) })
    | none =>
      let it : CartItem :=
        { id := db.nextId, user_id := user.id, product_id := productId,
          quantity := quantity }
      (.ok 201,
        { db with cart_items := db.cart_items ++ [it],
                  nextId := db.nextId + 1 })

/-- Translation of PUT /server/cart/:productId: set the quantity of the
row matching (user, product); .single() errors when no row matches. -/
def putCart (auth : Option AuthUser) (productId : Nat) (quantity : Int)
    (db : DB) : Resp × DB :=
  match auth with
  | none => (.err 401 "Unauthorized", db)
  | some user =>
    if db.cart_items.any (fun it =>
        it.user_id == user.id && it.product_id == productId) then
      (.ok 200,
        { db with cart_items := db.cart_items.map (fun it =>
            if it.user_id == user.id && it.product_id == productId then
              { it with quantity := quantity }
            else it) })
    else (.err 400 "0 rows", db)

/-- Translation of DELETE /server/cart/:productId. -/
def deleteCart (auth : Option AuthUser) (productId : Nat) (db : DB) :
    Resp × DB :=
  match auth with
  | none => (.err 401 "Unauthorized", db)
  | some user =>
    (.ok 200,
      { db with cart_items := db.cart_items.filter (fun it =>
          !(it.user_id == user.id && it.product_id == productId)) })

/-- Translation of GET /server/wishlist (read only). -/
def getWishlist (auth : Option AuthUser) (db : DB) : Resp × DB :=
  match auth with
  | none => (.err 401 "Unauthorized", db)
  | some _ => (.ok 200, db)

/-- Translation of POST /server/wishlist: plain insert; the UNIQUE
(user_id, product_id) constraint of schema.sql makes the insert fail
when the pair already exists. -/
def postWishlist (auth : Option AuthUser) (productId : Nat) (db : DB) :
    Resp × DB :=
  match auth with
  | none => (.err 401 "Unauthorized", db)
  | some user =>
    if db.wishlist_items.any (fun it =>
        it.user_id == user.id && it.product_id == productId) then
      (.err 400 "duplicate key value violates unique constraint", db)
    else
      let it : WishlistItem :=
        { id := db.nextId, user_id := user.id, product_id := productId }
      (.ok 201,
        { db with wishlist_items := db.wishlist_items ++ [it],
                  nextId := db.nextId + 1 })

/-- Translation of DELETE /server/wishlist/:productId. -/
def deleteWishlist (auth : Option AuthUser) (productId : Nat) (db : DB) :
    Resp × DB :=
  match auth with
  | none => (.err 401 "Unauthorized", db)
  | some user =>
    (.ok 200,
      { db with wishlist_items := db.wishlist_items.filter (fun it =>
          !(it.user_id == user.id && it.product_id == productId)) })

/-- Translation of GET /server/orders (read only). -/
def getOrders (auth : Option AuthUser) (db : DB) : Resp × DB :=
  match auth with
  | none => (.err 401 "Unauthorized", db)
  | some _ => (.ok 200, db)

/-- Translation of GET /server/admin/orders (admin only, read only). -/
def getAdminOrders (auth : Option AuthUser) (db : DB) : Resp × DB :=
  match auth with
  | none => (.err 401 "Unauthorized", db)
  | some user =>
    let r := getOrCreateUserRecord db user.id user.email
    if r.1.role != "admin" then (.err 403 "Admin access required", r.2)
    else (.ok 200, r.2)

/-- One line of the POST /orders request body. -/
structure OrderReqItem where
  productId : Nat
  name : String
  price : ℚ
  quantity : Int
deriving Repr, DecidableEq

/-- Translation of the stock-check-and-decrement loop of POST /orders:
for each line in order, read the current stock of the lines product
(404 when absent), reject with insufficient stock when the requested
quantity exceeds it, otherwise overwrite the stock with the decremented
value.  On failure the decrements already applied are kept, exactly as
in the source, where each iteration persists its update before the next
check runs. -/
def processOrderItems :
    List OrderReqItem → List Product → Option Resp × List Product
  | [], ps => (none, ps)
  | item :: rest, ps =>
    match ps.find? (fun p => p.id == item.productId) with
    | none => (some (.err 404 ("Product " ++ item.name ++ " not found")), ps)
    | some product =>
      if product.stock < item.quantity then
        (some (.err 400 ("Insufficient stock for " ++ item.name)), ps)
      else
        processOrderItems rest
          (updStock ps item.productId (product.stock - item.quantity))

/-- Item count logged with an order: sum of line quantities. -/
def orderItemCount (items : List OrderReqItem) : Int :=
  items.foldl (fun sum i => sum + i.quantity) 0

/-- Translation of POST /server/orders: run the stock loop; on success
insert the order row (status pending, client-supplied total stored
verbatim), insert one order_items row per request line, append an
activity log, and clear the callers cart. -/
def postOrders (auth : Option AuthUser) (items : List OrderReqItem)
    (total : ℚ) (shippingAddress : String) (now : String) (db : DB) :
    Resp × DB :=
  match auth with
  | none => (.err 401 "Unauthorized", db)
  | some user =>
    match processOrderItems items db.products with
    | (some resp, products1) => (resp, { db with products := products1 })
    | (none, products1) =>
      let orderId := db.nextId
      let order : Order :=
        { id := orderId, user_id := user.id, user_email := user.email,
          total := total, status := "pending",
          shipping_address := shippingAddress, created_at := now }
      let orderItems := items.enum.map (fun x =>
        { id := db.nextId + 1 + x.1, order_id := orderId,
          product_id := x.2.productId, name := x.2.name,
          price := x.2.price, quantity := x.2.quantity : OrderItem })
      let log : ActivityLog :=
        { type := "order_created", user_id := user.id,
          user_email := user.email,
          details := [("order_id", .nat orderId),
                      ("total_amount", .num total),
                      ("item_count", .int (orderItemCount items))] }
      (.ok 201,
        { db with products := products1,
                  orders := db.orders ++ [order],
                  order_items := db.order_items ++ orderItems,
                  activity_logs := db.activity_logs ++ [log],
                  cart_items := db.cart_items.filter (fun it =>
                    !(it.user_id == user.id)),
                  nextId := db.nextId + 1 + items.length })

/-- Translation of the restock loop of PUT /orders/:id/status: for each
order line, read the current stock of the lines product and, when the
product exists, overwrite it with stock plus the line quantity; missing
products are skipped. -/
def restockItems : List OrderItem → List Product → List Product
  | [], ps => ps
  | item :: rest, ps =>
    match ps.find? (fun p => p.id == item.product_id) with
    | none => restockItems rest ps
    | some product =>
      restockItems rest
        (updStock ps item.product_id (product.stock + item.quantity))

/-- Translation of PUT /server/orders/:id/status (admin only): 404 when
the order is absent; when the new status is cancelled and the previous
one is not, restock every line; then persist the new status and append
an activity log whose details use the keys previous_status and
newStatus. -/
def putOrderStatus (auth : Option AuthUser) (orderId : Nat) (status : String)
    (db : DB) : Resp × DB :=
  match auth with
  | none => (.err 401 "Unauthorized", db)
  | some user =>
    let r := getOrCreateUserRecord db user.id user.email
    if r.1.role != "admin" then (.err 403 "Admin access required", r.2)
    else
      match r.2.orders.find? (fun o => o.id == orderId) with
      | none => (.err 404 "Order not found", r.2)
      | some order =>
        let previousStatus := order.status
        let orderItems :=
          r.2.order_items.filter (fun it => it.order_id == orderId)
        let products1 :=
          if status == "cancelled" && previousStatus != "cancelled" then
            restockItems orderItems r.2.products
          else r.2.products
        let orders1 := r.2.orders.map (fun o =>
          if o.id == orderId then
            { o with status := status, updated_by := some user.id }
          else o)
        let log : ActivityLog :=
          { type := "order_status_updated", user_id := user.id,
            user_email := user.email,
            details := [("order_id", .nat orderId),
                        ("previous_status", .str previousStatus),
                        ("newStatus", .str status)] }
        (.ok 200,
          { r.2 with products := products1, orders := orders1,
                     activity_logs := r.2.activity_logs ++ [log] })

/-- Statistics block computed by GET /admin/analytics. -/
structure Analytics where
  totalRevenue : ℚ
  totalOrders : Nat
  pendingOrders : Nat
  completedOrders : Nat
  cancelledOrders : Nat
  totalProducts : Nat
  totalCategories : Nat
  totalUsers : Nat
  lowStockProducts : List Product
deriving Repr, DecidableEq

/-- Translation of the aggregation body of GET /server/admin/analytics:
the revenue reduce skips cancelled orders, counts are plain filters, and
the low-stock list keeps products with stock below 10. -/
def computeAnalytics (db : DB) : Analytics :=
  { totalRevenue := db.orders.foldl (fun sum order =>
      if order.status != "cancelled" then sum + order.total else sum) 0,
    totalOrders := db.orders.length,
    pendingOrders := (db.orders.filter (fun o => o.status == "pending")).length,
    completedOrders :=
      (db.orders.filter (fun o => o.status == "delivered")).length,
    cancelledOrders :=
      (db.orders.filter (fun o => o.status == "cancelled")).length,
    totalProducts := db.products.length,
    totalCategories := db.categories.length,
    totalUsers :=
      (db.users.filter (fun u => u.role == "user")).length,
    lowStockProducts := db.products.filter (fun p => p.stock < 10) }

/-- Translation of the per-day revenue reduce of the revenueChart loop:
sum the totals of non-cancelled orders whose created_at date part equals
the given day. -/
def dayRevenue (orders : List Order) (dateStr : String) : ℚ :=
  orders.foldl (fun sum order =>
    if (order.created_at.splitOn "T").headD "" == dateStr
        && order.status != "cancelled" then
      sum + order.total
    else sum) 0

/-- Translation of GET /server/admin/analytics (admin only, read only);
the computed statistics are exposed through computeAnalytics. -/
def getAdminAnalytics (auth : Option AuthUser) (db : DB) : Resp × DB :=
  match auth with
  | none => (.err 401 "Unauthorized", db)
  | some user =>
    let r := getOrCreateUserRecord db user.id user.email
    if r.1.role != "admin" then (.err 403 "Admin access required", r.2)
    else
      let _ := computeAnalytics r.2
      (.ok 200, r.2)

/-- Log entry shape returned by GET /admin/logs after projection. -/
structure LogEntry where
  type : String
  userId : Nat
  userEmail : Option String
  orderId : Option DVal
  totalAmount : Option DVal
  itemCount : Option DVal
  previousStatus : Option DVal
  newStatus : Option DVal
deriving Repr, DecidableEq

/-- Translation of the projection in GET /server/admin/logs: each field
is looked up in the details object under a fixed key; a key that the
writer never used yields undefined, modelled as none. -/
def transformLog (log : ActivityLog) : LogEntry :=
  { type := log.type, userId := log.user_id, userEmail := log.user_email,
    orderId := (log.details.lookup "order_id"),
    totalAmount := (log.details.lookup "total_amount"),
    itemCount := (log.details.lookup "item_count"),
    previousStatus := (log.details.lookup "previous_status"),
    newStatus := (log.details.lookup "new_status") }

/-- Transformed view served by GET /admin/logs: the most recent 100 log
rows (order by created_at descending, limit 100), projected by
transformLog. -/
def adminLogsView (db : DB) : List LogEntry :=
  (db.activity_logs.reverse.take 100).map transformLog

/-- Translation of GET /server/admin/logs (admin only, read only); the
served payload is exposed through adminLogsView. -/
def getAdminLogs (auth : Option AuthUser) (db : DB) : Resp × DB :=
  match auth with
  | none => (.err 401 "Unauthorized", db)
  | some user =>
    let r := getOrCreateUserRecord db user.id user.email
    if r.1.role != "admin" then (.err 403 "Admin access required", r.2)
    else
      let _ := adminLogsView r.2
      (.ok 200, r.2)

/-- Every route registered on the Hono app, in source order. -/
inductive Route where
  | postSignup
  | postCreateAdmin
  | getUser
  | getUserRole
  | putUserProfile
  | getUserAddresses
  | getAddresses
  | postAddresses
  | putAddress
  | deleteAddress
  | getCategories
  | postCategories
  | putCategory
  | deleteCategory
  | getProducts
  | getProduct
  | postProducts
  | putProduct
  | deleteProduct
  | getCart
  | postCart
  | putCart
  | deleteCart
  | getWishlist
  | postWishlist
  | deleteWishlist
  | getOrders
  | getAdminOrders
  | postOrders
  | putOrderStatus
  | getAdminAnalytics
  | getAdminLogs
deriving Repr, DecidableEq

/-- One HTTP request: the resolved bearer token (none when the header is
missing or supabase.auth.getUser rejects it), the path parameter, and
every body field any route reads, with inert defaults. -/
structure Request where
  auth : Option AuthUser := none
  param : Nat := 0
  email : String := ""
  password : String := ""
  name : String := ""
  phone : String := ""
  description : String := ""
  addressBody : AddressBody := {}
  categoryUpdates : CategoryUpdates := {}
  productBody : ProductBody := {}
  productUpdates : ProductUpdates := {}
  productId : Nat := 0
  quantity : Int := 0
  items : List OrderReqItem := []
  total : ℚ := 0
  shippingAddress : String := ""
  status : String := ""
  now : String := ""
deriving Repr, DecidableEq

/-- Dispatch a request to the handler of its route. -/
def handle (route : Route) (req : Request) (db : DB) : Resp × DB :=
  match route with
  | .postSignup => postSignup req.email req.password req.name db
  | .postCreateAdmin => postCreateAdmin req.email req.password req.name db
  | .getUser => getUser req.auth db
  | .getUserRole => getUserRole req.auth db
  | .putUserProfile => putUserProfile req.auth req.name req.phone db
  | .getUserAddresses => getUserAddresses req.auth db
  | .getAddresses => getAddresses req.auth db
  | .postAddresses => postAddresses req.auth req.addressBody db
  | .putAddress => putAddress req.auth req.param req.addressBody db
  | .deleteAddress => deleteAddress req.auth req.param db
  | .getCategories => getCategories db
  | .postCategories => postCategories req.auth req.name req.description db
  | .putCategory => putCategory req.auth req.param req.categoryUpdates db
  | .deleteCategory => deleteCategory req.auth req.param db
  | .getProducts => getProducts db
  | .getProduct => getProduct req.param db
  | .postProducts => postProducts req.auth req.productBody db
  | .putProduct => putProduct req.auth req.param req.productUpdates db
  | .deleteProduct => deleteProduct req.auth req.param db
  | .getCart => getCart req.auth db
  | .postCart => postCart req.auth req.productId req.quantity db
  | .putCart => putCart req.auth req.param req.quantity db
  | .deleteCart => deleteCart req.auth req.param db
  | .getWishlist => getWishlist req.auth db
  | .postWishlist => postWishlist req.auth req.productId db
  | .deleteWishlist => deleteWishlist req.auth req.param db
  | .getOrders => getOrders req.auth db
  | .getAdminOrders => getAdminOrders req.auth db
  | .postOrders =>
      postOrders req.auth req.items req.total req.shippingAddress req.now db
  | .putOrderStatus => putOrderStatus req.auth req.param req.status db
  | .getAdminAnalytics => getAdminAnalytics req.auth db
  | .getAdminLogs => getAdminLogs req.auth db

/-- Routes served without any token check: signup and the public catalog
reads, plus create-admin, which the source registers with no call to
verifyUser. -/
def publicRoutes : List Route :=
  [.postSignup, .postCreateAdmin, .getCategories, .getProducts, .getProduct]

/-- Routes that check the stored role and answer 403 for non-admins. -/
def adminRoutes : List Route :=
  [.postCategories, .putCategory, .deleteCategory, .postProducts,
   .putProduct, .deleteProduct, .getAdminOrders, .putOrderStatus,
   .getAdminAnalytics, .getAdminLogs]

/-! Helper lemmas. -/

/-- A found users row makes getOrCreateUserRecord a pure read. -/
theorem getOrCreateUserRecord_found {db : DB} {userId : Nat}
    {email : Option String} {u : UserRow}
    (h : db.users.find? (fun v => v.id == userId) = some u) :
    getOrCreateUserRecord db userId email = (u, db) := by
  simp [getOrCreateUserRecord, h]

/-- The running revenue fold equals the initial value plus the summed
totals of the non-cancelled orders. -/
theorem revenue_foldl (l : List Order) (init : ℚ) :
    l.foldl (fun sum order =>
        if order.status != "cancelled" then sum + order.total else sum) init
      = init + ((l.filter (fun o => o.status != "cancelled")).map
          Order.total).sum := by
  induction l generalizing init with
  | nil => simp
  | cons o t ih =>
    by_cases h : o.status = "cancelled"
    · simp only [List.foldl_cons, List.filter_cons]
      simp [h]
      simpa using ih init
    · simp only [List.foldl_cons, List.filter_cons]
      simp [h]
      simpa [add_assoc] using ih (init + o.total)

/-! C5: analytics revenue. -/

/-- C5: for every stored order set, including the empty one, the
totalRevenue computed by GET /admin/analytics equals the sum of the
total fields of exactly the orders whose status is not cancelled. -/
theorem C5_analytics_totalRevenue (db : DB) :
    (computeAnalytics db).totalRevenue
      = ((db.orders.filter (fun o => o.status != "cancelled")).map
          Order.total).sum ∧
    (db.orders = [] → (computeAnalytics db).totalRevenue = 0) := by
  constructor
  · have h := revenue_foldl db.orders 0
    simpa [computeAnalytics] using h
  · intro h
    simp [computeAnalytics, h]

/-! C9: implicit admin bootstrap in getOrCreateUserRecord. -/

/-- C9: when the caller has no users row, getOrCreateUserRecord inserts
one whose role is admin exactly when the auth email lowercases to
admin@tawsil.com, and user otherwise; a user created this way passes the
stored-role admin check of the admin routes with no explicit
promotion. -/
theorem C9_getOrCreateUserRecord_admin_iff (db : DB) (userId : Nat)
    (email : Option String)
    (habsent : db.users.find? (fun u => u.id == userId) = none) :
    (getOrCreateUserRecord db userId email).2.users
        = db.users ++ [(getOrCreateUserRecord db userId email).1] ∧
    (getOrCreateUserRecord db userId email).1.id = userId ∧
    (getOrCreateUserRecord db userId email).1.email = email ∧
    ((getOrCreateUserRecord db userId email).1.role = "admin"
        ↔ email.map lowerStr = some "admin@tawsil.com") ∧
    (email.map lowerStr = some "admin@tawsil.com" →
      (getAdminOrders (some { id := userId, email := email }) db).1
        = .ok 200) := by
  refine ⟨?_, ?_, ?_, ?_, ?_⟩
  · simp [getOrCreateUserRecord, habsent]
  · simp [getOrCreateUserRecord, habsent]
  · simp [getOrCreateUserRecord, habsent]
  · simp only [getOrCreateUserRecord, habsent]
    by_cases h : email.map lowerStr = some "admin@tawsil.com"
    · simp [h]
    · simp [h]
  · intro h
    simp [getAdminOrders, getOrCreateUserRecord, habsent, h]

/-- Witness for C9 at a concrete input: empty database, the bootstrap
email, and a plain email. -/
theorem C9_witness :
    ((({} : DB).users.find? (fun u => u.id == 5) = none) ∧
      (getOrCreateUserRecord {} 5 (some "Admin@Tawsil.com")).1.role
        = "admin") ∧
    (getOrCreateUserRecord {} 6 (some "bob@tawsil.com")).1.role = "user" := by
  refine ⟨⟨by decide, ?_⟩, by decide⟩
  exact ((C9_getOrCreateUserRecord_admin_iff {} 5 (some "Admin@Tawsil.com")
    (by decide)).2.2.2.1).mpr (by decide)

/-! C6: cart upsert keeps one row per (user, product). -/

/-- C6: when a cart row for the (user, product) pair exists with
quantity q, POST /cart updates that row to q plus the requested
quantity, creating no new row, and the multiset of (user, product) pairs
in the cart is unchanged, so at most one row per pair is kept. -/
theorem C6_postCart_existing (user : AuthUser) (productId : Nat)
    (quantity : Int) (db : DB) (existingItem : CartItem)
    (hfind : db.cart_items.find? (fun it =>
        it.user_id == user.id && it.product_id == productId)
      = some existingItem) :
    (postCart (some user) productId quantity db).1 = .ok 200 ∧
    (postCart (some user) productId quantity db).2.cart_items
      = db.cart_items.map (fun it =>
          if it.id == existingItem.id then
            { it with quantity := existingItem.quantity + quantity }
          else it) ∧
    (postCart (some user) productId quantity db).2.cart_items.length
      = db.cart_items.length ∧
    (postCart (some user) productId quantity db).2.cart_items.map
        (fun it => (it.user_id, it.product_id))
      = db.cart_items.map (fun it => (it.user_id, it.product_id)) := by
  refine ⟨?_, ?_, ?_, ?_⟩
  · simp [postCart, hfind]
  · simp [postCart, hfind]
  · simp [postCart, hfind]
  · simp only [postCart, hfind, List.map_map]
    refine List.map_congr_left ?_
    intro a _
    by_cases h : a.id == existingItem.id
    · simp [h, Function.comp]
    · simp [h, Function.comp]

/-- Cart row used by the C6 witness. -/
def item6 : CartItem := { id := 11, user_id := 3, product_id := 9, quantity := 2 }

/-- One-row cart database used by the C6 witness. -/
def db6 : DB := { cart_items := [item6] }

/-- Witness for C6: a one-row cart for user 3 and product 9 with
quantity 2; adding 4 more yields quantity 6 in the same single row. -/
theorem C6_witness :
    (db6.cart_items.find? (fun it =>
        it.user_id == (3 : Nat) && it.product_id == (9 : Nat)) = some item6) ∧
    (postCart (some { id := 3, email := none }) 9 4 db6).2.cart_items
      = [{ id := 11, user_id := 3, product_id := 9, quantity := 6 }] := by
  refine ⟨by decide, ?_⟩
  have h := C6_postCart_existing { id := 3, email := none } 9 4 db6 item6
    (by decide)
  rw [h.2.1]
  decide

/-! C8: client-supplied order total stored verbatim. -/

/-- Sum over stored order lines of price times quantity. -/
def lineSum (items : List OrderItem) : ℚ :=
  (items.map (fun it => it.price * (it.quantity : ℚ))).sum

/-- Database holding one product used by the C8 scenario. -/
def db8 : DB :=
  { products := [{ id := 1, name := "Widget", price := 5, stock := 10 }] }

/-- Result of the C8 order request: one line worth 5, client total 100. -/
def res8 : Resp × DB :=
  postOrders (some { id := 7, email := some "u@x.y" })
    [{ productId := 1, name := "Widget", price := 5, quantity := 1 }]
    100 "addr" "2025-01-02T03:04:05Z" db8

/-- C8: POST /orders stores the client-supplied total verbatim with no
validation against the lines: the request of res8 succeeds, stores total
100 although its lines sum to 5, and analytics revenue then sums that
stored 100. -/
theorem C8_total_unvalidated :
    res8.1 = .ok 201 ∧
    res8.2.orders.map Order.total = [100] ∧
    lineSum res8.2.order_items = 5 ∧
    (100 : ℚ) ≠ 5 ∧
    (computeAnalytics res8.2).totalRevenue = 100 := by
  refine ⟨rfl, rfl, ?_, by decide, ?_⟩
  · have h : res8.2.order_items
        = [{ id := 1, order_id := 0, product_id := 1, name := "Widget",
             price := 5, quantity := 1 }] := rfl
    rw [h]
    norm_num [lineSum]
  · have h : res8.2.orders
        = [{ id := 0, user_id := 7, user_email := some "u@x.y",
             total := 100, status := "pending", shipping_address := "addr",
             created_at := "2025-01-02T03:04:05Z" }] := rfl
    have h2 := revenue_foldl res8.2.orders 0
    rw [h] at h2
    simp only [computeAnalytics]
    rw [h]
    rw [show (List.filter (fun o => o.status != "cancelled")
        [{ id := 0, user_id := 7, user_email := some "u@x.y",
           total := 100, status := "pending", shipping_address := "addr",
           created_at := "2025-01-02T03:04:05Z" : Order }])
      = [{ id := 0, user_id := 7, user_email := some "u@x.y",
           total := 100, status := "pending", shipping_address := "addr",
           created_at := "2025-01-02T03:04:05Z" : Order }] from rfl] at h2
    rw [h2]
    norm_num

/-! C10: status-update log key mismatch. -/

/-- C10: a status update writes its new status under the details key
newStatus, but GET /admin/logs projects the key new_status, so the
served entry has newStatus undefined while previousStatus carries the
stored value. -/
theorem C10_orderStatusLog_key_mismatch (user : AuthUser) (urow : UserRow)
    (orderId : Nat) (status : String) (db : DB) (order : Order)
    (hu : db.users.find? (fun v => v.id == user.id) = some urow)
    (hrole : urow.role = "admin")
    (ho : db.orders.find? (fun o => o.id == orderId) = some order) :
    ∃ log : ActivityLog,
      (putOrderStatus (some user) orderId status db).2.activity_logs
        = db.activity_logs ++ [log] ∧
      (adminLogsView (putOrderStatus (some user) orderId status db).2).head?
        = some (transformLog log) ∧
      log.details.lookup "newStatus" = some (.str status) ∧
      (transformLog log).newStatus = none ∧
      (transformLog log).previousStatus = some (.str order.status) := by
  refine ⟨{ type := "order_status_updated", user_id := user.id,
            user_email := user.email,
            details := [("order_id", .nat orderId),
                        ("previous_status", .str order.status),
                        ("newStatus", .str status)] }, ?_, ?_, rfl, rfl, rfl⟩
  · simp [putOrderStatus, getOrCreateUserRecord_found hu, hrole, ho]
  · simp [putOrderStatus, getOrCreateUserRecord_found hu, hrole, ho,
      adminLogsView, List.reverse_append]

/-- Admin row used by the C10 and C3 witnesses. -/
def adminRow : UserRow := { id := 1, email := some "a@b.c", role := "admin" }

/-- Order used by the C10 witness. -/
def order10 : Order := { id := 4, user_id := 2, user_email := none, total := 20, status := "pending" }

/-- Database used by the C10 witness. -/
def db10 : DB := { users := [adminRow], orders := [order10] }

/-- Witness for C10: marking order 4 as shipped in db10 produces a log
whose served projection has no newStatus and previousStatus pending. -/
theorem C10_witness :
    ∃ log : ActivityLog,
      (putOrderStatus (some { id := 1, email := some "a@b.c" }) 4
          "shipped" db10).2.activity_logs = db10.activity_logs ++ [log] ∧
      (adminLogsView (putOrderStatus (some { id := 1, email := some "a@b.c" })
          4 "shipped" db10).2).head? = some (transformLog log) ∧
      log.details.lookup "newStatus" = some (.str "shipped") ∧
      (transformLog log).newStatus = none ∧
      (transformLog log).previousStatus = some (.str order10.status) :=
  C10_orderStatusLog_key_mismatch { id := 1, email := some "a@b.c" }
    adminRow 4 "shipped" db10 order10 (by decide) (by decide) (by decide)

/-! C7: at most one default address per user. -/

/-- A filter whose satisfying elements all share one id selects at most
one element of a list with pairwise distinct ids. -/
theorem length_filter_le_one (l : List Address) (p : Address → Bool) (x : Nat)
    (hids : (l.map Address.id).Nodup)
    (hkey : ∀ a ∈ l, p a = true → a.id = x) :
    (l.filter p).length ≤ 1 := by
  induction l with
  | nil => simp
  | cons a t ih =>
    simp only [List.map_cons, List.nodup_cons] at hids
    by_cases hp : p a
    · have hax : a.id = x := hkey a (by simp) hp
      have ht : t.filter p = [] := by
        cases hft : t.filter p with
        | nil => rfl
        | cons b s =>
          exfalso
          have hb : b ∈ t.filter p := by rw [hft]; exact List.mem_cons_self b s
          have hbt : b ∈ t := List.mem_of_mem_filter hb
          have hpb : p b = true := List.of_mem_filter hb
          have hbx : b.id = x := hkey b (List.mem_cons_of_mem a hbt) hpb
          exact hids.1 (hax ▸ hbx ▸ List.mem_map_of_mem Address.id hbt)
      simp [List.filter_cons, hp, ht]
    · rw [List.filter_cons, if_neg hp]
      exact ih hids.2 (fun b hb hpb => hkey b (List.mem_cons_of_mem a hb) hpb)

/-- Clearing the default flag on the rows of one user leaves no default
row of that user in the mapped list. -/
theorem addr_clear_filter_nil (l : List Address) (uid : Nat) :
    ((clearUserDefaults uid l).filter
      (fun a => a.user_id == uid && a.is_default)) = [] := by
  rw [clearUserDefaults, List.filter_eq_nil_iff]
  intro b hb
  obtain ⟨a, _, rfl⟩ := List.mem_map.1 hb
  by_cases h : a.user_id = uid
  · simp [h]
  · simp [h]

/-- A row map that fixes rows of other users and never changes user_id
leaves the other-user rows of the list untouched. -/
theorem filter_ne_map (l : List Address) (uid : Nat) (f : Address → Address)
    (hid : ∀ a, (f a).user_id = a.user_id)
    (hfix : ∀ a, a.user_id ≠ uid → f a = a) :
    (l.map f).filter (fun a => a.user_id != uid)
      = l.filter (fun a => a.user_id != uid) := by
  induction l with
  | nil => rfl
  | cons a t ih =>
    by_cases h : a.user_id = uid
    · simp [List.filter_cons, hid, h, ih]
    · simp [List.filter_cons, hid, h, hfix a h, ih]

/-- Mapping a row function that never changes ids leaves the id list of
the table unchanged. -/
theorem map_id_map (l : List Address) (f : Address → Address)
    (hf : ∀ a, (f a).id = a.id) :
    (l.map f).map Address.id = l.map Address.id := by
  rw [List.map_map]
  exact List.map_congr_left fun a _ => hf a

/-- After the PUT-side clearing pass, any still-default row of the user
must be the row the neq clause spared. -/
theorem clearNe_key (uid addressId : Nat) (l : List Address) :
    ∀ b ∈ clearUserDefaultsNe uid addressId l,
      (b.user_id == uid && b.is_default) = true → b.id = addressId := by
  intro b hb hp
  simp only [clearUserDefaultsNe] at hb
  obtain ⟨a, _, rfl⟩ := List.mem_map.1 hb
  by_cases h : (a.user_id == uid && a.id != addressId) = true
  · rw [if_pos h] at hp
    simp at hp
  · rw [if_neg h] at hp ⊢
    simp only [Bool.and_eq_true, beq_iff_eq] at hp
    simp only [Bool.and_eq_true, beq_iff_eq, bne_iff_ne, not_and, not_ne_iff]
      at h
    exact h hp.1

/-- After the PUT-side clearing pass, every row of the user other than
the spared one has its default flag cleared. -/
theorem clearNe_cleared (uid addressId : Nat) (l : List Address) :
    ∀ b ∈ clearUserDefaultsNe uid addressId l,
      b.user_id = uid → b.id ≠ addressId → b.is_default = false := by
  intro b hb hu hid
  simp only [clearUserDefaultsNe] at hb
  obtain ⟨a, _, rfl⟩ := List.mem_map.1 hb
  by_cases h : (a.user_id == uid && a.id != addressId) = true
  · simp [h]
  · rw [if_neg h] at hu hid ⊢
    simp only [Bool.and_eq_true, beq_iff_eq, bne_iff_ne, not_and, not_ne_iff]
      at h
    exact absurd (h hu) hid

/-- The PUT-side clearing pass keeps the id column unchanged. -/
theorem clearNe_ids (uid addressId : Nat) (l : List Address) :
    (clearUserDefaultsNe uid addressId l).map Address.id
      = l.map Address.id := by
  simp only [clearUserDefaultsNe]
  exact map_id_map _ _ (fun a => by
    by_cases h : (a.user_id == uid && a.id != addressId) = true <;> simp [h])

/-- The PUT-side clearing pass touches no row of another user. -/
theorem clearNe_filter_ne (uid addressId : Nat) (l : List Address) :
    (clearUserDefaultsNe uid addressId l).filter
        (fun a => a.user_id != uid)
      = l.filter (fun a => a.user_id != uid) := by
  simp only [clearUserDefaultsNe]
  refine filter_ne_map _ _ _ ?_ ?_
  · intro a
    by_cases h : (a.user_id == uid && a.id != addressId) = true <;> simp [h]
  · intro a h
    simp [h]

/-! C7: the claim theorem. -/

/-- C7: creating an address with is_default true (POST) clears the flag
on every other address of the caller and leaves exactly one default
address of that user; updating an address to default (PUT) clears the
flag on all other addresses of the caller, leaving at most one default
per user; rows of other users are untouched by both. -/
theorem C7_default_address_unique (user : AuthUser) (body : AddressBody)
    (addressId : Nat) (db : DB)
    (hdef : body.is_default = true)
    (hids : (db.addresses.map Address.id).Nodup) :
    ((postAddresses (some user) body db).1 = .ok 201 ∧
     ((postAddresses (some user) body db).2.addresses.filter
        (fun a => a.user_id == user.id && a.is_default)).length = 1 ∧
     (∀ a ∈ (postAddresses (some user) body db).2.addresses,
        a.user_id = user.id → a.id ≠ db.nextId → a.is_default = false) ∧
     ((postAddresses (some user) body db).2.addresses.filter
        (fun a => a.user_id != user.id))
       = db.addresses.filter (fun a => a.user_id != user.id)) ∧
    (((putAddress (some user) addressId body db).2.addresses.filter
        (fun a => a.user_id == user.id && a.is_default)).length ≤ 1 ∧
     (∀ a ∈ (putAddress (some user) addressId body db).2.addresses,
        a.user_id = user.id → a.id ≠ addressId → a.is_default = false) ∧
     ((putAddress (some user) addressId body db).2.addresses.filter
        (fun a => a.user_id != user.id))
       = db.addresses.filter (fun a => a.user_id != user.id)) := by
  have hpost : (postAddresses (some user) body db).2.addresses
      = clearUserDefaults user.id db.addresses
        ++ [{ id := db.nextId, user_id := user.id, name := body.name,
              street := body.street, city := body.city, state := body.state,
              postal_code := body.postal_code, country := body.country,
              is_default := body.is_default }] := by
    simp [postAddresses, hdef]
  constructor
  · refine ⟨by simp [postAddresses], ?_, ?_, ?_⟩
    · rw [hpost, List.filter_append, addr_clear_filter_nil]
      simp [hdef]
    · rw [hpost]
      intro a ha hu hid
      rcases List.mem_append.1 ha with h1 | h2
      · simp only [clearUserDefaults] at h1
        obtain ⟨b, _, rfl⟩ := List.mem_map.1 h1
        by_cases hb2 : b.user_id = user.id
        · simp [hb2]
        · rw [if_neg (by simpa using hb2)] at hu
          exact absurd hu hb2
      · have ha2 := List.mem_singleton.1 h2
        rw [ha2] at hid
        exact absurd rfl hid
    · rw [hpost, List.filter_append]
      have h1 : (clearUserDefaults user.id db.addresses).filter
          (fun a => a.user_id != user.id)
        = db.addresses.filter (fun a => a.user_id != user.id) := by
        simp only [clearUserDefaults]
        refine filter_ne_map _ _ _ ?_ ?_
        · intro a
          by_cases h : a.user_id = user.id <;> simp [h]
        · intro a h
          simp [h]
      rw [h1]
      simp
  · by_cases hc : ((clearUserDefaultsNe user.id addressId db.addresses).any
        (fun a => a.id == addressId && a.user_id == user.id)) = true
    · have hput : (putAddress (some user) addressId body db).2.addresses
          = (clearUserDefaultsNe user.id addressId db.addresses).map (fun a =>
              if a.id == addressId && a.user_id == user.id then
                applyAddressBody body a
              else a) := by
        simp [putAddress, hdef, hc]
      refine ⟨?_, ?_, ?_⟩
      · rw [hput]
        refine length_filter_le_one _ _ addressId ?_ ?_
        · rw [map_id_map _ _ (fun a => by
            by_cases h : (a.id == addressId && a.user_id == user.id) = true <;>
              simp [h, applyAddressBody]), clearNe_ids]
          exact hids
        · intro c hc2 hp
          obtain ⟨b, hbA1, rfl⟩ := List.mem_map.1 hc2
          by_cases hub : (b.id == addressId && b.user_id == user.id) = true
          · rw [if_pos hub]
            simp only [Bool.and_eq_true, beq_iff_eq] at hub
            simp [applyAddressBody, hub.1]
          · rw [if_neg hub] at hp ⊢
            exact clearNe_key _ _ _ b hbA1 hp
      · rw [hput]
        intro a ha hu hid
        obtain ⟨b, hbA1, rfl⟩ := List.mem_map.1 ha
        by_cases hub : (b.id == addressId && b.user_id == user.id) = true
        · rw [if_pos hub] at hid
          simp only [Bool.and_eq_true, beq_iff_eq] at hub
          exact absurd (by simpa [applyAddressBody] using hub.1) hid
        · rw [if_neg hub] at hu hid ⊢
          exact clearNe_cleared _ _ _ b hbA1 hu hid
      · rw [hput]
        have h2 : ((clearUserDefaultsNe user.id addressId db.addresses).map
            (fun a => if a.id == addressId && a.user_id == user.id then
              applyAddressBody body a else a)).filter
              (fun a => a.user_id != user.id)
          = (clearUserDefaultsNe user.id addressId db.addresses).filter
              (fun a => a.user_id != user.id) := by
          refine filter_ne_map _ _ _ ?_ ?_
          · intro a
            by_cases h : (a.id == addressId && a.user_id == user.id) = true <;>
              simp [h, applyAddressBody]
          · intro a h
            rw [if_neg ?_]
            simp only [Bool.and_eq_true, beq_iff_eq, not_and]
            intro _
            exact h
        rw [h2, clearNe_filter_ne]
    · have hput : (putAddress (some user) addressId body db).2.addresses
          = clearUserDefaultsNe user.id addressId db.addresses := by
        simp [putAddress, hdef, hc]
      refine ⟨?_, ?_, ?_⟩
      · rw [hput]
        refine length_filter_le_one _ _ addressId ?_ ?_
        · rw [clearNe_ids]
          exact hids
        · exact clearNe_key _ _ _
      · rw [hput]
        exact clearNe_cleared _ _ _
      · rw [hput, clearNe_filter_ne]

/-- Caller used by the C7 witness. -/
def user7 : AuthUser := { id := 1, email := none }

/-- Body marking the address default, used by the C7 witness. -/
def body7 : AddressBody := { name := "home", is_default := true }

/-- Address table used by the C7 witness: user 1 already has a default
address (id 1) and a second one (id 2); user 2 has a default (id 3). -/
def db7 : DB := { addresses := [{ id := 1, user_id := 1, is_default := true }, { id := 2, user_id := 1 }, { id := 3, user_id := 2, is_default := true }], nextId := 10 }

/-- Witness for C7 at a concrete input: after POST exactly one default
address of user 1 remains, and after PUT of address 2 at most one. -/
theorem C7_witness :
    (body7.is_default = true) ∧ ((db7.addresses.map Address.id).Nodup) ∧
    ((postAddresses (some user7) body7 db7).2.addresses.filter
        (fun a => a.user_id == user7.id && a.is_default)).length = 1 ∧
    ((putAddress (some user7) 2 body7 db7).2.addresses.filter
        (fun a => a.user_id == user7.id && a.is_default)).length ≤ 1 :=
  ⟨by decide, by decide,
   (C7_default_address_unique user7 body7 2 db7 (by decide) (by decide)).1.2.1,
   (C7_default_address_unique user7 body7 2 db7 (by decide) (by decide)).2.1⟩

/-! Stock bookkeeping lemmas for the order pipeline. -/

/-- Decidable per-line stock check of POST /orders: the product exists
and holds at least the requested quantity. -/
def sufficientStock (ps : List Product) (it : OrderReqItem) : Bool :=
  (stockOfP ps it.productId).elim false (fun s => decide (it.quantity ≤ s))

/-- Updating the stock of a found product makes its selected row carry
the new value. -/
theorem find?_updStock_self (ps : List Product) (pid : Nat) (s : Int)
    (p : Product) (h : ps.find? (fun q => q.id == pid) = some p) :
    (updStock ps pid s).find? (fun q => q.id == pid)
      = some { p with stock := s } := by
  induction ps with
  | nil => simp at h
  | cons a t ih =>
    cases ha : (a.id == pid) with
    | true =>
      simp only [List.find?, ha] at h
      obtain rfl : a = p := by simpa using h
      have ha2 : (({ a with stock := s } : Product).id == pid) = true := ha
      simp [updStock, List.find?, ha, ha2]
    | false =>
      simp [List.find?, ha] at h
      have ih2 := ih h
      rw [updStock] at ih2
      simpa [updStock, List.find?, ha, -List.find?_map] using ih2

/-- Updating the stock of one product leaves the selected row of every
other product id unchanged. -/
theorem find?_updStock_ne (ps : List Product) (pid q : Nat) (s : Int)
    (hne : q ≠ pid) :
    (updStock ps pid s).find? (fun r => r.id == q)
      = ps.find? (fun r => r.id == q) := by
  induction ps with
  | nil => rfl
  | cons a t ih =>
    have ihr := ih
    rw [updStock] at ihr
    cases ha : (a.id == pid) with
    | true =>
      have haq : (a.id == q) = false := by
        simp only [beq_iff_eq] at ha
        simp only [beq_eq_false_iff_ne, ne_eq]
        intro he
        exact hne (he ▸ ha ▸ rfl)
      have haq2 : (({ a with stock := s } : Product).id == q) = false := haq
      simpa [updStock, List.find?, ha, haq, haq2, -List.find?_map] using ihr
    | false =>
      cases haq : (a.id == q) with
      | true => simp [updStock, List.find?, ha, haq, -List.find?_map]
      | false =>
        simpa [updStock, List.find?, ha, haq, -List.find?_map] using ihr

/-- Stock view of find?_updStock_self. -/
theorem stockOfP_updStock_self (ps : List Product) (pid : Nat) (s : Int)
    (p : Product) (h : ps.find? (fun q => q.id == pid) = some p) :
    stockOfP (updStock ps pid s) pid = some s := by
  simp [stockOfP, find?_updStock_self ps pid s p h]

/-- Stock view of find?_updStock_ne. -/
theorem stockOfP_updStock_ne (ps : List Product) (pid q : Nat) (s : Int)
    (hne : q ≠ pid) :
    stockOfP (updStock ps pid s) q = stockOfP ps q := by
  simp [stockOfP, find?_updStock_ne ps pid q s hne]

/-- Loop invariant of the POST /orders stock pass on the all-sufficient
path: no error, each requested line decremented by exactly its quantity,
every other product untouched. -/
theorem processOrderItems_ok (items : List OrderReqItem)
    (ps : List Product)
    (hnodup : (items.map OrderReqItem.productId).Nodup)
    (hsuff : ∀ it ∈ items, sufficientStock ps it = true) :
    (processOrderItems items ps).1 = none ∧
    (∀ it ∈ items,
      stockOfP (processOrderItems items ps).2 it.productId
        = (stockOfP ps it.productId).map (fun s => s - it.quantity)) ∧
    (∀ pid, pid ∉ items.map OrderReqItem.productId →
      stockOfP (processOrderItems items ps).2 pid = stockOfP ps pid) := by
  induction items generalizing ps with
  | nil => exact ⟨rfl, by simp, fun pid _ => rfl⟩
  | cons item rest ih =>
    have hs := hsuff item (List.mem_cons_self _ _)
    obtain ⟨p, hfind, hle⟩ : ∃ p,
        ps.find? (fun q => q.id == item.productId) = some p ∧
        item.quantity ≤ p.stock := by
      unfold sufficientStock stockOfP at hs
      cases hf : ps.find? (fun q => q.id == item.productId) with
      | none => rw [hf] at hs; simp at hs
      | some p =>
        rw [hf] at hs
        simp at hs
        exact ⟨p, rfl, hs⟩
    have hstep : processOrderItems (item :: rest) ps
        = processOrderItems rest
            (updStock ps item.productId (p.stock - item.quantity)) := by
      simp only [processOrderItems, hfind]
      rw [if_neg (by omega)]
    simp only [List.map_cons, List.nodup_cons] at hnodup
    have hnotin : item.productId ∉ rest.map OrderReqItem.productId :=
      hnodup.1
    have hself : stockOfP (updStock ps item.productId
        (p.stock - item.quantity)) item.productId
        = some (p.stock - item.quantity) :=
      stockOfP_updStock_self ps item.productId _ p hfind
    have hpres : ∀ q, q ≠ item.productId →
        stockOfP (updStock ps item.productId (p.stock - item.quantity)) q
          = stockOfP ps q :=
      fun q hq => stockOfP_updStock_ne ps item.productId q _ hq
    have hsuff1 : ∀ it ∈ rest,
        sufficientStock (updStock ps item.productId
          (p.stock - item.quantity)) it = true := by
      intro it hit
      have hne : it.productId ≠ item.productId := by
        intro he
        exact hnotin (he ▸ List.mem_map_of_mem _ hit)
      unfold sufficientStock
      rw [hpres it.productId hne]
      exact hsuff it (List.mem_cons_of_mem _ hit)
    obtain ⟨ih1, ih2, ih3⟩ := ih _ hnodup.2 hsuff1
    refine ⟨by rw [hstep]; exact ih1, ?_, ?_⟩
    · intro it hit
      rcases List.mem_cons.1 hit with rfl | hit2
      · rw [hstep, ih3 it.productId hnotin, hself]
        rw [stockOfP, hfind]
        rfl
      · rw [hstep, ih2 it hit2, hpres it.productId (by
          intro he
          exact hnotin (he ▸ List.mem_map_of_mem _ hit2))]
    · intro pid hpid
      simp only [List.map_cons, List.mem_cons, not_or] at hpid
      rw [hstep, ih3 pid hpid.2, hpres pid hpid.1]

/-- Loop invariant of the POST /orders stock pass when a line fails its
check: the insufficient-stock error is returned, the failing line and
every line after it keep their stock, lines before it are already
decremented, and untouched ids keep their stock. -/
theorem processOrderItems_fail (pre : List OrderReqItem)
    (bad : OrderReqItem) (post : List OrderReqItem) (ps : List Product)
    (hnodup : ((pre ++ bad :: post).map OrderReqItem.productId).Nodup)
    (hpre : ∀ it ∈ pre, sufficientStock ps it = true)
    (hbadSome : (stockOfP ps bad.productId).isSome = true)
    (hbad : sufficientStock ps bad = false) :
    (processOrderItems (pre ++ bad :: post) ps).1
      = some (.err 400 ("Insufficient stock for " ++ bad.name)) ∧
    stockOfP (processOrderItems (pre ++ bad :: post) ps).2 bad.productId
      = stockOfP ps bad.productId ∧
    (∀ it ∈ post,
      stockOfP (processOrderItems (pre ++ bad :: post) ps).2 it.productId
        = stockOfP ps it.productId) ∧
    (∀ it ∈ pre,
      stockOfP (processOrderItems (pre ++ bad :: post) ps).2 it.productId
        = (stockOfP ps it.productId).map (fun s => s - it.quantity)) ∧
    (∀ pid, pid ∉ (pre ++ bad :: post).map OrderReqItem.productId →
      stockOfP (processOrderItems (pre ++ bad :: post) ps).2 pid
        = stockOfP ps pid) := by
  induction pre generalizing ps with
  | nil =>
    obtain ⟨p, hfind⟩ : ∃ p,
        ps.find? (fun q => q.id == bad.productId) = some p := by
      unfold stockOfP at hbadSome
      cases hf : ps.find? (fun q => q.id == bad.productId) with
      | none => rw [hf] at hbadSome; simp at hbadSome
      | some p => exact ⟨p, rfl⟩
    have hlt : p.stock < bad.quantity := by
      unfold sufficientStock stockOfP at hbad
      rw [hfind] at hbad
      simp at hbad
      omega
    have hstep : processOrderItems ([] ++ bad :: post) ps
        = (some (.err 400 ("Insufficient stock for " ++ bad.name)), ps) := by
      simp only [List.nil_append, processOrderItems, hfind, List.append_eq]
      rw [if_pos hlt]
    rw [hstep]
    exact ⟨rfl, rfl, fun it _ => rfl, by simp, fun pid _ => rfl⟩
  | cons item pre2 ih =>
    have hs := hpre item (List.mem_cons_self _ _)
    obtain ⟨p, hfind, hle⟩ : ∃ p,
        ps.find? (fun q => q.id == item.productId) = some p ∧
        item.quantity ≤ p.stock := by
      unfold sufficientStock stockOfP at hs
      cases hf : ps.find? (fun q => q.id == item.productId) with
      | none => rw [hf] at hs; simp at hs
      | some p =>
        rw [hf] at hs
        simp at hs
        exact ⟨p, rfl, hs⟩
    have hstep : processOrderItems ((item :: pre2) ++ bad :: post) ps
        = processOrderItems (pre2 ++ bad :: post)
            (updStock ps item.productId (p.stock - item.quantity)) := by
      simp only [List.cons_append, processOrderItems, hfind, List.append_eq]
      rw [if_neg (by omega)]
    simp only [List.cons_append, List.map_cons, List.nodup_cons] at hnodup
    have hnotin : item.productId
        ∉ (pre2 ++ bad :: post).map OrderReqItem.productId := hnodup.1
    have hself : stockOfP (updStock ps item.productId
        (p.stock - item.quantity)) item.productId
        = some (p.stock - item.quantity) :=
      stockOfP_updStock_self ps item.productId _ p hfind
    have hpres : ∀ q, q ≠ item.productId →
        stockOfP (updStock ps item.productId (p.stock - item.quantity)) q
          = stockOfP ps q :=
      fun q hq => stockOfP_updStock_ne ps item.productId q _ hq
    have hbadne : bad.productId ≠ item.productId := by
      intro he
      refine hnotin ?_
      rw [List.map_append, List.mem_append]
      exact Or.inr (by simp [he.symm])
    have hpre1 : ∀ it ∈ pre2,
        sufficientStock (updStock ps item.productId
          (p.stock - item.quantity)) it = true := by
      intro it hit
      have hne : it.productId ≠ item.productId := by
        intro he
        refine hnotin ?_
        rw [List.map_append, List.mem_append]
        exact Or.inl (he ▸ List.mem_map_of_mem _ hit)
      unfold sufficientStock
      rw [hpres it.productId hne]
      exact hpre it (List.mem_cons_of_mem _ hit)
    have hbadSome1 : (stockOfP (updStock ps item.productId
        (p.stock - item.quantity)) bad.productId).isSome = true := by
      rw [hpres bad.productId hbadne]
      exact hbadSome
    have hbad1 : sufficientStock (updStock ps item.productId
        (p.stock - item.quantity)) bad = false := by
      unfold sufficientStock
      rw [hpres bad.productId hbadne]
      exact hbad
    obtain ⟨ih1, ih2, ih3, ih4, ih5⟩ :=
      ih _ hnodup.2 hpre1 hbadSome1 hbad1
    refine ⟨by rw [hstep]; exact ih1, ?_, ?_, ?_, ?_⟩
    · rw [hstep, ih2, hpres bad.productId hbadne]
    · intro it hit
      have hne : it.productId ≠ item.productId := by
        intro he
        refine hnotin ?_
        rw [List.map_append, List.mem_append]
        exact Or.inr (by
          simp only [List.map_cons, List.mem_cons]
          exact Or.inr (he ▸ List.mem_map_of_mem _ hit))
      rw [hstep, ih3 it hit, hpres it.productId hne]
    · intro it hit
      rcases List.mem_cons.1 hit with rfl | hit2
      · rw [hstep, ih5 it.productId hnotin, hself]
        rw [stockOfP, hfind]
        rfl
      · have hne : it.productId ≠ item.productId := by
          intro he
          refine hnotin ?_
          rw [List.map_append, List.mem_append]
          exact Or.inl (he ▸ List.mem_map_of_mem _ hit2)
        rw [hstep, ih4 it hit2, hpres it.productId hne]
    · intro pid hpid
      simp only [List.cons_append, List.map_cons, List.mem_cons, not_or]
        at hpid
      rw [hstep, ih5 pid hpid.2, hpres pid hpid.1]

/-- Projection of the inserted order_items rows: the build of one row
per request line preserves order id, product, name, price and
quantity. -/
theorem orderItems_proj (items : List OrderReqItem) (n k oid : Nat) :
    ((List.enumFrom n items).map (fun x =>
      ({ id := k + 1 + x.1, order_id := oid, product_id := x.2.productId,
         name := x.2.name, price := x.2.price,
         quantity := x.2.quantity } : OrderItem))).map
      (fun oi => (oi.order_id, oi.product_id, oi.name, oi.price, oi.quantity))
    = items.map (fun it =>
        (oid, it.productId, it.name, it.price, it.quantity)) := by
  induction items generalizing n with
  | nil => rfl
  | cons it rest ih =>
    simp only [List.enumFrom, List.map_cons]
    rw [ih]

/-! C1: the happy-path order placement. -/

/-- C1: when every line of the request passes its stock check, POST
/orders answers 201, decrements the stock of each requested product by
exactly the requested quantity, leaves every other product untouched,
appends exactly one order row with status pending, and appends one
order_items row per request line matching it in order, product, name,
price and quantity. -/
theorem C1_postOrders_success (user : AuthUser) (items : List OrderReqItem)
    (total : ℚ) (shippingAddress now : String) (db : DB)
    (hnodup : (items.map OrderReqItem.productId).Nodup)
    (hsuff : ∀ it ∈ items, sufficientStock db.products it = true) :
    (postOrders (some user) items total shippingAddress now db).1
      = .ok 201 ∧
    (∀ it ∈ items,
      stockOf (postOrders (some user) items total shippingAddress now db).2
          it.productId
        = (stockOf db it.productId).map (fun s => s - it.quantity)) ∧
    (∀ pid, pid ∉ items.map OrderReqItem.productId →
      stockOf (postOrders (some user) items total shippingAddress now db).2
          pid
        = stockOf db pid) ∧
    (postOrders (some user) items total shippingAddress now db).2.orders
      = db.orders
        ++ [{ id := db.nextId, user_id := user.id,
              user_email := user.email, total := total,
              status := "pending",
              shipping_address := shippingAddress,
              created_at := now }] ∧
    ∃ newRows : List OrderItem,
      (postOrders (some user) items total shippingAddress
          now db).2.order_items
        = db.order_items ++ newRows ∧
      newRows.map (fun oi =>
          (oi.order_id, oi.product_id, oi.name, oi.price, oi.quantity))
        = items.map (fun it =>
          (db.nextId, it.productId, it.name, it.price, it.quantity)) := by
  obtain ⟨h1, h2, h3⟩ := processOrderItems_ok items db.products hnodup hsuff
  rcases hE : processOrderItems items db.products with ⟨err, ps1⟩
  rw [hE] at h1 h2 h3
  dsimp only at h1 h2 h3
  subst h1
  refine ⟨?_, ?_, ?_, ?_, ?_⟩
  · simp only [postOrders, hE]
  · intro it hit
    simp only [postOrders, hE, stockOf]
    exact h2 it hit
  · intro pid hpid
    simp only [postOrders, hE, stockOf]
    exact h3 pid hpid
  · simp only [postOrders, hE]
  · refine ⟨items.enum.map (fun x =>
      ({ id := db.nextId + 1 + x.1, order_id := db.nextId,
         product_id := x.2.productId, name := x.2.name, price := x.2.price,
         quantity := x.2.quantity } : OrderItem)), ?_, ?_⟩
    · simp only [postOrders, hE]
    · simp only [List.enum]
      exact orderItems_proj items 0 db.nextId db.nextId

/-- Products table of the C1 witness. -/
def dbC1 : DB := { products := [{ id := 1, name := "A", price := 2, stock := 5 }, { id := 2, name := "B", price := 3, stock := 7 }], nextId := 50 }

/-- Request lines of the C1 witness. -/
def itemsC1 : List OrderReqItem := [{ productId := 1, name := "A", price := 2, quantity := 4 }, { productId := 2, name := "B", price := 3, quantity := 7 }]

/-- Witness for C1: both lines fit in stock, the request succeeds and
both stocks drop by the requested quantities. -/
theorem C1_witness :
    ((itemsC1.map OrderReqItem.productId).Nodup) ∧
    (∀ it ∈ itemsC1, sufficientStock dbC1.products it = true) ∧
    (postOrders (some { id := 9, email := none }) itemsC1 29 "s" "t"
        dbC1).1 = .ok 201 ∧
    stockOf (postOrders (some { id := 9, email := none }) itemsC1 29 "s" "t"
        dbC1).2 1 = some 1 := by
  have h := C1_postOrders_success { id := 9, email := none } itemsC1 29 "s"
    "t" dbC1 (by decide) (by decide)
  refine ⟨by decide, by decide, h.1, ?_⟩
  have h2 := h.2.1 { productId := 1, name := "A", price := 2, quantity := 4 }
    (by decide)
  rw [show stockOf dbC1 1 = some 5 from by decide] at h2
  simpa using h2

/-! C2: a line failing its stock check aborts the order. -/

/-- C2: when some line requests more than its products current stock,
POST /orders answers the insufficient-stock error and creates no order
row, no order_items rows, no log entry, and does not clear the cart;
the failing line and every line after it leave their products stock
unchanged, each line already processed before it having been
decremented independently, with no rollback. -/
theorem C2_postOrders_insufficient (user : AuthUser)
    (pre : List OrderReqItem) (bad : OrderReqItem)
    (post : List OrderReqItem) (total : ℚ) (shippingAddress now : String)
    (db : DB)
    (hnodup : ((pre ++ bad :: post).map OrderReqItem.productId).Nodup)
    (hpre : ∀ it ∈ pre, sufficientStock db.products it = true)
    (hbadSome : (stockOf db bad.productId).isSome = true)
    (hbad : sufficientStock db.products bad = false) :
    (postOrders (some user) (pre ++ bad :: post) total shippingAddress now
        db).1
      = .err 400 ("Insufficient stock for " ++ bad.name) ∧
    (postOrders (some user) (pre ++ bad :: post) total shippingAddress now
        db).2.orders = db.orders ∧
    (postOrders (some user) (pre ++ bad :: post) total shippingAddress now
        db).2.order_items = db.order_items ∧
    (postOrders (some user) (pre ++ bad :: post) total shippingAddress now
        db).2.cart_items = db.cart_items ∧
    (postOrders (some user) (pre ++ bad :: post) total shippingAddress now
        db).2.activity_logs = db.activity_logs ∧
    stockOf (postOrders (some user) (pre ++ bad :: post) total
        shippingAddress now db).2 bad.productId = stockOf db bad.productId ∧
    (∀ it ∈ post,
      stockOf (postOrders (some user) (pre ++ bad :: post) total
          shippingAddress now db).2 it.productId
        = stockOf db it.productId) ∧
    (∀ it ∈ pre,
      stockOf (postOrders (some user) (pre ++ bad :: post) total
          shippingAddress now db).2 it.productId
        = (stockOf db it.productId).map (fun s => s - it.quantity)) := by
  obtain ⟨h1, h2, h3, h4, h5⟩ :=
    processOrderItems_fail pre bad post db.products hnodup hpre hbadSome hbad
  rcases hE : processOrderItems (pre ++ bad :: post) db.products
    with ⟨err, ps1⟩
  rw [hE] at h1 h2 h3 h4 h5
  dsimp only at h1 h2 h3 h4 h5
  subst h1
  refine ⟨?_, ?_, ?_, ?_, ?_, ?_, ?_, ?_⟩
  · simp only [postOrders, hE]
  · simp only [postOrders, hE]
  · simp only [postOrders, hE]
  · simp only [postOrders, hE]
  · simp only [postOrders, hE]
  · simp only [postOrders, hE, stockOf]
    exact h2
  · intro it hit
    simp only [postOrders, hE, stockOf]
    exact h3 it hit
  · intro it hit
    simp only [postOrders, hE, stockOf]
    exact h4 it hit

/-- Products table of the C2 witness: product 2 has stock 3 only. -/
def dbC2 : DB := { products := [{ id := 1, name := "A", price := 2, stock := 5 }, { id := 2, name := "B", price := 3, stock := 3 }], nextId := 50 }

/-- First (sufficient) line of the C2 witness request. -/
def preC2 : List OrderReqItem := [{ productId := 1, name := "A", price := 2, quantity := 4 }]

/-- Failing line of the C2 witness request: quantity 7 exceeds stock 3. -/
def badC2 : OrderReqItem := { productId := 2, name := "B", price := 3, quantity := 7 }

/-- Witness for C2: the order is rejected with the insufficient-stock
error, no order row appears, the failing product keeps stock 3, and the
already processed first line was decremented to 1. -/
theorem C2_witness :
    (((preC2 ++ badC2 :: []).map OrderReqItem.productId).Nodup) ∧
    (sufficientStock dbC2.products badC2 = false) ∧
    (postOrders (some { id := 9, email := none }) (preC2 ++ badC2 :: [])
        10 "s" "t" dbC2).1 = .err 400 "Insufficient stock for B" ∧
    (postOrders (some { id := 9, email := none }) (preC2 ++ badC2 :: [])
        10 "s" "t" dbC2).2.orders = dbC2.orders ∧
    stockOf (postOrders (some { id := 9, email := none })
        (preC2 ++ badC2 :: []) 10 "s" "t" dbC2).2 2 = some 3 := by
  have h := C2_postOrders_insufficient { id := 9, email := none } preC2
    badC2 [] 10 "s" "t" dbC2 (by decide) (by decide) (by decide) (by decide)
  refine ⟨by decide, by decide, h.1, h.2.1, ?_⟩
  have h2 := h.2.2.2.2.2.1
  rw [show stockOf dbC2 badC2.productId = some 3 from by decide] at h2
  exact h2

/-! C3: cancellation restocks each line exactly once. -/

/-- Loop invariant of the cancellation restock pass: each line adds its
quantity to its products stock exactly once, every other product is
untouched. -/
theorem restockItems_ok (items : List OrderItem) (ps : List Product)
    (hnodup : (items.map OrderItem.product_id).Nodup)
    (hsome : ∀ it ∈ items, (stockOfP ps it.product_id).isSome = true) :
    (∀ it ∈ items,
      stockOfP (restockItems items ps) it.product_id
        = (stockOfP ps it.product_id).map (fun s => s + it.quantity)) ∧
    (∀ pid, pid ∉ items.map OrderItem.product_id →
      stockOfP (restockItems items ps) pid = stockOfP ps pid) := by
  induction items generalizing ps with
  | nil => exact ⟨by simp, fun pid _ => rfl⟩
  | cons item rest ih =>
    obtain ⟨p, hfind⟩ : ∃ p,
        ps.find? (fun q => q.id == item.product_id) = some p := by
      have hs := hsome item (List.mem_cons_self _ _)
      unfold stockOfP at hs
      cases hf : ps.find? (fun q => q.id == item.product_id) with
      | none => rw [hf] at hs; simp at hs
      | some p => exact ⟨p, rfl⟩
    have hstep : restockItems (item :: rest) ps
        = restockItems rest
            (updStock ps item.product_id (p.stock + item.quantity)) := by
      simp only [restockItems, hfind]
    simp only [List.map_cons, List.nodup_cons] at hnodup
    have hnotin : item.product_id ∉ rest.map OrderItem.product_id :=
      hnodup.1
    have hself : stockOfP (updStock ps item.product_id
        (p.stock + item.quantity)) item.product_id
        = some (p.stock + item.quantity) :=
      stockOfP_updStock_self ps item.product_id _ p hfind
    have hpres : ∀ q, q ≠ item.product_id →
        stockOfP (updStock ps item.product_id (p.stock + item.quantity)) q
          = stockOfP ps q :=
      fun q hq => stockOfP_updStock_ne ps item.product_id q _ hq
    have hsome1 : ∀ it ∈ rest,
        (stockOfP (updStock ps item.product_id
          (p.stock + item.quantity)) it.product_id).isSome = true := by
      intro it hit
      have hne : it.product_id ≠ item.product_id := by
        intro he
        exact hnotin (he ▸ List.mem_map_of_mem _ hit)
      rw [hpres it.product_id hne]
      exact hsome it (List.mem_cons_of_mem _ hit)
    obtain ⟨ih1, ih2⟩ := ih _ hnodup.2 hsome1
    refine ⟨?_, ?_⟩
    · intro it hit
      rcases List.mem_cons.1 hit with rfl | hit2
      · rw [hstep, ih2 it.product_id hnotin, hself]
        rw [stockOfP, hfind]
        rfl
      · rw [hstep, ih1 it hit2, hpres it.product_id (by
          intro he
          exact hnotin (he ▸ List.mem_map_of_mem _ hit2))]
    · intro pid hpid
      simp only [List.map_cons, List.mem_cons, not_or] at hpid
      rw [hstep, ih2 pid hpid.2, hpres pid hpid.1]

/-- C3: transitioning an order to cancelled from a non-cancelled status
adds each order lines quantity back to its products stock exactly once;
a transition whose target is not cancelled, or whose previous status is
already cancelled, leaves the whole products table unchanged. -/
theorem C3_cancel_restocks_once (user : AuthUser) (urow : UserRow)
    (orderId : Nat) (status : String) (db : DB) (order : Order)
    (hu : db.users.find? (fun v => v.id == user.id) = some urow)
    (hrole : urow.role = "admin")
    (ho : db.orders.find? (fun o => o.id == orderId) = some order)
    (hnodup : ((db.order_items.filter (fun it =>
        it.order_id == orderId)).map OrderItem.product_id).Nodup)
    (hsome : ∀ it ∈ db.order_items.filter (fun it =>
        it.order_id == orderId), (stockOf db it.product_id).isSome = true) :
    (putOrderStatus (some user) orderId status db).1 = .ok 200 ∧
    ((status = "cancelled" ∧ order.status ≠ "cancelled") →
      (∀ it ∈ db.order_items.filter (fun it => it.order_id == orderId),
        stockOf (putOrderStatus (some user) orderId status db).2
            it.product_id
          = (stockOf db it.product_id).map (fun s => s + it.quantity)) ∧
      (∀ pid, pid ∉ (db.order_items.filter (fun it =>
            it.order_id == orderId)).map OrderItem.product_id →
        stockOf (putOrderStatus (some user) orderId status db).2 pid
          = stockOf db pid)) ∧
    ((status ≠ "cancelled" ∨ order.status = "cancelled") →
      (putOrderStatus (some user) orderId status db).2.products
        = db.products) := by
  refine ⟨?_, ?_, ?_⟩
  · simp [putOrderStatus, getOrCreateUserRecord_found hu, hrole, ho]
  · rintro ⟨hs, hps⟩
    have hcond : (status == "cancelled" && order.status != "cancelled")
        = true := by
      simp [hs, hps]
    have hred : (putOrderStatus (some user) orderId status db).2.products
        = restockItems (db.order_items.filter (fun it =>
            it.order_id == orderId)) db.products := by
      simp [putOrderStatus, getOrCreateUserRecord_found hu, hrole, ho,
        hcond]
    obtain ⟨r1, r2⟩ := restockItems_ok (db.order_items.filter (fun it =>
      it.order_id == orderId)) db.products hnodup hsome
    constructor
    · intro it hit
      rw [stockOf, hred]
      exact r1 it hit
    · intro pid hpid
      rw [stockOf, hred]
      exact r2 pid hpid
  · intro h
    have hcond : (status == "cancelled" && order.status != "cancelled")
        = false := by
      rcases h with h | h
      · simp [h]
      · simp [h]
    simp [putOrderStatus, getOrCreateUserRecord_found hu, hrole, ho, hcond]

/-- Order table of the C3 witness: one pending order (id 4) of total 20
with one line of 6 units of product 1, and one already cancelled order
(id 8). -/
def dbC3 : DB := { users := [adminRow], products := [{ id := 1, name := "A", price := 2, stock := 5 }], orders := [{ id := 4, user_id := 2, user_email := none, total := 20, status := "pending" }, { id := 8, user_id := 2, user_email := none, total := 9, status := "cancelled" }], order_items := [{ id := 30, order_id := 4, product_id := 1, name := "A", price := 2, quantity := 6 }] }

/-- Witness for C3: cancelling pending order 4 in dbC3 restores stock of
product 1 from 5 to 11, while marking it shipped leaves products
unchanged, as does re-cancelling the already cancelled order 8. -/
theorem C3_witness :
    stockOf (putOrderStatus (some { id := 1, email := some "a@b.c" }) 4
        "cancelled" dbC3).2 1 = some 11 ∧
    (putOrderStatus (some { id := 1, email := some "a@b.c" }) 4 "shipped"
        dbC3).2.products = dbC3.products ∧
    (putOrderStatus (some { id := 1, email := some "a@b.c" }) 8 "cancelled"
        dbC3).2.products = dbC3.products := by
  refine ⟨?_, ?_, ?_⟩
  · have h := C3_cancel_restocks_once { id := 1, email := some "a@b.c" }
      adminRow 4 "cancelled" dbC3
      { id := 4, user_id := 2, user_email := none, total := 20, status := "pending" }
      (by decide) (by decide) (by decide) (by decide) (by decide)
    have h2 := (h.2.1 (by decide)).1
      { id := 30, order_id := 4, product_id := 1, name := "A", price := 2, quantity := 6 }
      (by decide)
    rw [show stockOf dbC3 1 = some 5 from by decide] at h2
    simpa using h2
  · have h := C3_cancel_restocks_once { id := 1, email := some "a@b.c" }
      adminRow 4 "shipped" dbC3
      { id := 4, user_id := 2, user_email := none, total := 20, status := "pending" }
      (by decide) (by decide) (by decide) (by decide) (by decide)
    exact h.2.2 (Or.inl (by decide))
  · have h := C3_cancel_restocks_once { id := 1, email := some "a@b.c" }
      adminRow 8 "cancelled" dbC3
      { id := 8, user_id := 2, user_email := none, total := 9, status := "cancelled" }
      (by decide) (by decide) (by decide) (by decide) (by decide)
    exact h.2.2 (Or.inr (by decide))

/-! C4: authentication and authorization gate. -/

/-- C4 (amended): every route except signup, create-admin and the
public catalog reads answers 401 and leaves the database untouched when
the request carries no valid bearer token; every admin route answers
403 and leaves the database untouched when the callers stored role is
not admin. -/
theorem C4_auth_gate (route : Route) (req : Request) (db : DB) :
    (req.auth = none → route ∉ publicRoutes →
      handle route req db = (.err 401 "Unauthorized", db)) ∧
    (∀ user urow, req.auth = some user →
      db.users.find? (fun v => v.id == user.id) = some urow →
      urow.role ≠ "admin" → route ∈ adminRoutes →
      handle route req db = (.err 403 "Admin access required", db)) := by
  constructor
  · intro hauth hpub
    cases route <;>
      first
      | exact absurd (by decide) hpub
      | simp [handle, getUser, getUserRole, putUserProfile,
          getUserAddresses, getAddresses, postAddresses, putAddress,
          deleteAddress, postCategories, putCategory, deleteCategory,
          postProducts, putProduct, deleteProduct, getCart, postCart,
          putCart, deleteCart, getWishlist, postWishlist, deleteWishlist,
          getOrders, getAdminOrders, postOrders, putOrderStatus,
          getAdminAnalytics, getAdminLogs, hauth]
  · intro user urow hauth hfind hrole hadm
    cases route <;>
      first
      | exact absurd hadm (by decide)
      | simp [handle, postCategories, putCategory, deleteCategory,
          postProducts, putProduct, deleteProduct, getAdminOrders,
          putOrderStatus, getAdminAnalytics, getAdminLogs, hauth,
          getOrCreateUserRecord_found hfind, hrole]

/-- C4 counterexample: POST /create-admin is neither signup nor a public
catalog read, yet with no bearer token it does not answer 401 and it
does change state, inserting a users row whose role is admin. -/
theorem C4_counterexample :
    (handle .postCreateAdmin { email := "evil@x.y" } {}).1
        ≠ .err 401 "Unauthorized" ∧
    (handle .postCreateAdmin { email := "evil@x.y" } {}).2 ≠ ({} : DB) ∧
    (handle .postCreateAdmin { email := "evil@x.y" } {}).2.users.map
        UserRow.role = ["admin"] := by
  decide

/-- User table of the C4 witness 403 case: user 1 has stored role
user. -/
def dbC4 : DB := { users := [{ id := 1, email := none, role := "user" }] }

/-- Witness for C4: a tokenless GET /cart answers 401 on the empty
database, and GET /admin/logs by stored-role user 1 answers 403, both
leaving the database unchanged. -/
theorem C4_witness :
    handle .getCart {} {} = (.err 401 "Unauthorized", ({} : DB)) ∧
    handle .getAdminLogs { auth := some { id := 1, email := none } } dbC4
      = (.err 403 "Admin access required", dbC4) :=
  ⟨(C4_auth_gate .getCart {} {}).1 rfl (by decide),
   (C4_auth_gate .getAdminLogs { auth := some { id := 1, email := none } }
      dbC4).2 { id := 1, email := none }
      { id := 1, email := none, role := "user" } rfl (by decide)
      (by decide) (by decide)⟩

end Tawsil
